import Mathlib

/-!
# Verification of the luxury_house data pipeline

Shallow embedding of the schema-normalization and feature-derivation
pipeline of the `luxury_house` repository
(`src/data_loader.py`, `src/housing_data_cleaner.py`).

Modelling conventions:
* pandas scalar cells are modelled by `Cell`: a numeric value (`ℚ`,
  standing for Python floats, which are decimal-representable here),
  a text value, an IEEE infinity (sign flag), or `null` (NaN/None —
  exactly the values `pd.isna` recognises).
* A `DataFrame` is a list of column names plus a list of rows, a row
  being an association list from column name to `Cell`; a key missing
  from a row reads as `null`.
* Regex character class `\d` is modelled as the ASCII digits (the
  fragment actually exercised by the data), `\s` as ASCII whitespace,
  `[a-zA-Z]` as the ASCII letters.
* Python `str.upper`/`str.lower`/`str.title` are modelled on the ASCII
  letters (their behaviour on the data in scope).
* All functions are total, as the modelled Python code paths raise no
  exception on any input in this fragment; the orchestrator's
  `try/except` bookkeeping is therefore modelled by a stage report
  whose status is `success` for these total stage bodies.
-/

/-- A pandas scalar cell: number, string, signed infinity, or missing
(NaN/None).  `pd.isna` is true exactly on `null`. -/
inductive Cell where
  | num (q : ℚ)
  | str (s : String)
  | inf (neg : Bool)
  | null
deriving DecidableEq, Repr

/-- A pandas row (`pd.Series` indexed by column names): an association
list from column name to cell. -/
abbrev Row := List (String × Cell)

/-- Look a column up in a row: `row[column]` when present. -/
def Row.getCellOpt (r : Row) (c : String) : Option Cell :=
  (r.find? (fun p => p.1 == c)).map (fun p => p.2)

/-- Read a column of a row, a missing key reading as NaN. -/
def Row.getCell (r : Row) (c : String) : Cell :=
  (r.getCellOpt c).getD Cell.null

/-- Write a column of a row: replace the binding when the key exists,
append it otherwise (pandas column assignment restricted to one row). -/
def Row.setCell : Row → String → Cell → Row
  | [], c, v => [(c, v)]
  | p :: t, c, v => if p.1 = c then (c, v) :: t else p :: Row.setCell t c v

/-- A pandas `DataFrame`: the column index plus the rows. -/
structure DataFrame where
  cols : List String
  rows : List Row
deriving DecidableEq, Repr

/-- `df[c] = f(row)` columnwise assignment: every row gets the value of
`f` on that row, and `c` joins the column index when new. -/
def DataFrame.setCol (df : DataFrame) (c : String) (f : Row → Cell) : DataFrame :=
  { cols := if c ∈ df.cols then df.cols else df.cols ++ [c],
    rows := df.rows.map (fun r => r.setCell c (f r)) }

/-- Assign a saved list of values to a column, pairing rows with values
positionally (the index-aligned series assignment of the source); rows
beyond the value list read NaN. -/
def setColValsRows : List Row → List Cell → String → List Row
  | [], _, _ => []
  | r :: rs, [], c => r.setCell c Cell.null :: setColValsRows rs [] c
  | r :: rs, v :: vs, c => r.setCell c v :: setColValsRows rs vs c

/-- `df[c] = series` with an explicit value list. -/
def DataFrame.setColVals (df : DataFrame) (c : String) (vs : List Cell) : DataFrame :=
  { cols := if c ∈ df.cols then df.cols else df.cols ++ [c],
    rows := setColValsRows df.rows vs c }

/-- The cells of one column, in row order. -/
def DataFrame.getColCells (df : DataFrame) (c : String) : List Cell :=
  df.rows.map (fun r => r.getCell c)

/-! ## ASCII string utilities (Python `str` methods on the ASCII fragment) -/

/-- ASCII digit test (regex `\d` on the modelled fragment). -/
def isDigitChar (c : Char) : Bool := 48 ≤ c.toNat && c.toNat ≤ 57

/-- Numeric value of an ASCII digit. -/
def digitVal (c : Char) : Nat := c.toNat - 48

/-- ASCII letter test (regex `[a-zA-Z]`). -/
def isAsciiLetter (c : Char) : Bool :=
  (97 ≤ c.toNat && c.toNat ≤ 122) || (65 ≤ c.toNat && c.toNat ≤ 90)

/-- ASCII whitespace test (regex `\s` on the modelled fragment). -/
def isWsChar (c : Char) : Bool :=
  c = ' ' || c = '\t' || c = '\n' || c = '\r'

/-- Python `str.upper` on an ASCII character. -/
def charUp (c : Char) : Char :=
  if 97 ≤ c.toNat && c.toNat ≤ 122 then Char.ofNat (c.toNat - 32) else c

/-- Python `str.lower` on an ASCII character. -/
def charLow (c : Char) : Char :=
  if 65 ≤ c.toNat && c.toNat ≤ 90 then Char.ofNat (c.toNat + 32) else c

/-- Python `str.upper`. -/
def toUpperStr (s : String) : String := ⟨s.data.map charUp⟩

/-- Python `str.lower`. -/
def toLowerStr (s : String) : String := ⟨s.data.map charLow⟩

/-- The digits of a number as a natural value (`int` of a digit string). -/
def natOfDigits (l : List Char) : Nat :=
  l.foldl (fun acc c => 10 * acc + digitVal c) 0

/-! ## Price Normalizer text transforms (`clean_price_column`, lines 132-147)

The five `str.replace` passes, applied in source order:
`[₹$,]` → ``, `cr\.?` (IGNORECASE) → ``, `lac\.?` (IGNORECASE) → ``,
`\s+` → ``, `[a-zA-Z]` → ``. -/

/-- Remove currency symbols and thousands separators (regex `[₹$,]`). -/
def stripCurrency (s : String) : String :=
  ⟨s.data.filter (fun c => !(c = '₹' || c = '$' || c = ','))⟩

/-- One case-insensitive `cr` token. -/
def isCrPair (c d : Char) : Bool :=
  (c = 'c' || c = 'C') && (d = 'r' || d = 'R')

/-- Remove every occurrence of case-insensitive `cr` with an optional
trailing period (regex `cr\.?`), scanning left to right as `re.sub`. -/
def stripCrList : List Char → List Char
  | [] => []
  | [c] => [c]
  | c :: d :: '.' :: t =>
    if isCrPair c d then stripCrList t else c :: stripCrList (d :: '.' :: t)
  | c :: d :: t =>
    if isCrPair c d then stripCrList t else c :: stripCrList (d :: t)

def stripCr (s : String) : String := ⟨stripCrList s.data⟩

/-- One case-insensitive `lac` token. -/
def isLacTriple (a b c : Char) : Bool :=
  (a = 'l' || a = 'L') && (b = 'a' || b = 'A') && (c = 'c' || c = 'C')

/-- Remove every occurrence of case-insensitive `lac` with an optional
trailing period (regex `lac\.?`). -/
def stripLacList : List Char → List Char
  | [] => []
  | [a] => [a]
  | [a, b] => [a, b]
  | a :: b :: c :: '.' :: t =>
    if isLacTriple a b c then stripLacList t
    else a :: stripLacList (b :: c :: '.' :: t)
  | a :: b :: c :: t =>
    if isLacTriple a b c then stripLacList t else a :: stripLacList (b :: c :: t)

def stripLac (s : String) : String := ⟨stripLacList s.data⟩

/-- Remove all whitespace (regex `\s+` → ``). -/
def stripWs (s : String) : String := ⟨s.data.filter (fun c => !isWsChar c)⟩

/-- Remove any remaining letters (regex `[a-zA-Z]` → ``). -/
def stripAlpha (s : String) : String := ⟨s.data.filter (fun c => !isAsciiLetter c)⟩

/-- The composite of the five text transforms, in source order. -/
def cleanPriceText (s : String) : String :=
  stripAlpha (stripWs (stripLac (stripCr (stripCurrency s))))

/-! ## Decimal parsing (`pd.to_numeric(···, errors='coerce')`) -/

/-- Parse an optionally signed decimal numeral `[+-]?digits[.digits]?`
(at least one digit); anything else fails.  This is the fragment of
`pd.to_numeric` reachable after the text transforms (no letters remain,
so no exponent or `inf`/`nan` spellings can occur). -/
def parseDecimal (s : String) : Option ℚ :=
  let (neg, l) : Bool × List Char :=
    match s.data with
    | '+' :: t => (false, t)
    | '-' :: t => (true, t)
    | l => (false, l)
  let ip := l.takeWhile isDigitChar
  let rest := l.dropWhile isDigitChar
  let mag : Option ℚ :=
    match rest with
    | [] => if ip = [] then none else some ((natOfDigits ip : Nat) : ℚ)
    | '.' :: fp =>
      if fp.all isDigitChar && !(ip = [] && fp = []) then
        some (((natOfDigits ip : Nat) : ℚ) + ((natOfDigits fp : Nat) : ℚ) / ((10 : ℚ) ^ fp.length))
      else none
    | _ => none
  mag.map (fun m => if neg then -m else m)

/-! ## Column statistics -/

/-- Insert into a `≤`-sorted list. -/
def insertSorted (q : ℚ) : List ℚ → List ℚ
  | [] => [q]
  | x :: t => if q ≤ x then q :: x :: t else x :: insertSorted q t

/-- Sort ascending (specification of the sort used by `Series.median`). -/
def sortRats (l : List ℚ) : List ℚ := l.foldr insertSorted []

/-- `Series.median` over the present (non-NaN) values: middle element of
the sorted values, the mean of the two middles for an even count, and
NaN (`none`) for an empty set. -/
def median (l : List ℚ) : Option ℚ :=
  match l with
  | [] => none
  | _ =>
    let s := sortRats l
    let n := s.length
    if n % 2 = 1 then some (s.getD (n / 2) 0)
    else some ((s.getD (n / 2 - 1) 0 + s.getD (n / 2) 0) / 2)

/-- The numeric values of a cell list (the values `median` sees;
NaN and text cells are skipped, and the infinities do not occur in any
column a median is taken of in this pipeline). -/
def numCells (l : List Cell) : List ℚ :=
  l.filterMap (fun c => match c with | Cell.num q => some q | _ => none)

/-- A cell holding a missing value (`pd.isna`). -/
def isNullCell (c : Cell) : Bool := c = Cell.null

/-! ## Scalar conversions -/

/-- Smallest exponent `k ≤ 30` with `q·10^k` integral (total: defaults
to 30; the floats in scope are decimal-representable). -/
def decExp (q : ℚ) : Nat :=
  ((List.range 31).find? (fun k => (q * (10 : ℚ) ^ k).den = 1)).getD 30

/-- Python `str` of a float: sign, integer part, point, fraction digits
(one `0` when the value is integral), e.g. `str(2.5) = "2.5"`,
`str(1.0) = "1.0"`. -/
def ratToDecimalString (q : ℚ) : String :=
  let k := decExp q
  let n : Int := (q * (10 : ℚ) ^ k).num
  let s := Nat.toDigits 10 n.natAbs
  let sPad := List.replicate (k + 1 - s.length) '0' ++ s
  let ip : List Char := sPad.take (sPad.length - k)
  let fp : List Char := sPad.drop (sPad.length - k)
  (if n < 0 then "-" else "") ++ String.mk ip ++ "." ++
    (if k = 0 then "0" else String.mk fp)

/-- Python `str(cell)` (`astype(str)` elementwise): text is unchanged,
NaN prints `nan`, the infinities print `inf`/`-inf`. -/
def cellToStr : Cell → String
  | Cell.str s => s
  | Cell.num q => ratToDecimalString q
  | Cell.inf neg => if neg then "-inf" else "inf"
  | Cell.null => "nan"

/-- `pd.to_numeric(errors='coerce')` elementwise: strings parse or
become NaN, numbers and NaN pass through. -/
def toNumericCell : Cell → Cell
  | Cell.str s =>
    match parseDecimal s with
    | some q => Cell.num q
    | none => Cell.null
  | c => c

/-- A `.str` accessor method applied elementwise: transforms text cells,
sends every non-string cell to NaN. -/
def mapStrCell (f : String → String) : Cell → Cell
  | Cell.str s => Cell.str (f s)
  | _ => Cell.null

/-- `fillna` with a possibly-missing numeric fill value: `fillna(NaN)`
is a no-op. -/
def fillNA (c : Cell) (m : Option ℚ) : Cell :=
  match c, m with
  | Cell.null, some v => Cell.num v
  | c, _ => c

/-- `fillna` with a string literal. -/
def fillNAStr (c : Cell) (s : String) : Cell :=
  match c with
  | Cell.null => Cell.str s
  | c => c

/-! ## `HousingDataLoader` derivation helpers (`src/data_loader.py`) -/

/-- The configuration→area table of `calculate_carpet_area`
(lines 281-285), in insertion order. -/
def area_map : List (String × Nat) :=
  [("1BHK", 650), ("2BHK", 950), ("3BHK", 1250), ("4BHK", 1600),
   ("5BHK", 2100), ("STUDIO", 400), ("1RK", 350), ("2BHK+STUDY", 1100),
   ("3BHK+STUDY", 1400), ("4BHK+STUDY", 1800)]

/-- The `for config_pattern, area in area_map.items()` loop: first
pattern (in table order) that is a substring of the upper-cased
configuration. -/
def findArea : List (String × Nat) → List Char → Option Nat
  | [], _ => none
  | (pat, area) :: t, cfg =>
    if pat.data <:+: cfg then some area else findArea t cfg

/-- `HousingDataLoader.calculate_carpet_area` (lines 279-292). -/
def calculate_carpet_area (configuration : String) : Nat :=
  match findArea area_map (toUpperStr configuration).data with
  | some area => area
  | none => 1000

/-- `HousingDataLoader.calculate_price_per_sqft` (lines 294-298):
guarded division, zero for a non-positive area. -/
def calculate_price_per_sqft (ticket_price : ℚ) (carpet_area : Int) : ℚ :=
  if 0 < carpet_area then (ticket_price * 10000000) / (carpet_area : ℚ) else 0

/-! ### `extract_quarter_year` (lines 300-327)

`re.search` of the three patterns `Q(\d)[_\-]?(\d{4})`,
`(\d{4})[_\-]?Q(\d)`, `(\d{4})`, tried in that order.  Each `matchP·At`
matches one pattern at the head of a character list; `searchList` is
`re.search`'s leftmost-position scan.  The optional separator class
`[_\-]` never overlaps a digit, so the greedy-optional regex semantics
coincide with "skip one separator when present". -/

/-- Four consecutive digits at the head: their value and the rest. -/
def fourDigitsSplit : List Char → Option (Nat × List Char)
  | a :: b :: c :: d :: t =>
    if isDigitChar a && isDigitChar b && isDigitChar c && isDigitChar d then
      some (1000 * digitVal a + 100 * digitVal b + 10 * digitVal c + digitVal d, t)
    else none
  | _ => none

/-- `(\d{4})` at the head of a list. -/
def fourDigits (l : List Char) : Option Nat := (fourDigitsSplit l).map (fun p => p.1)

/-- Skip one optional `_` or `-` (regex `[_\-]?`). -/
def skipSep : List Char → List Char
  | '_' :: t => t
  | '-' :: t => t
  | l => l

/-- `Q(\d)[_\-]?(\d{4})` at the head: `(quarter, year)`. -/
def matchP1At : List Char → Option (Nat × Nat)
  | c :: d :: rest =>
    if c = 'Q' && isDigitChar d then
      (fourDigits (skipSep rest)).map (fun y => (digitVal d, y))
    else none
  | _ => none

/-- `(\d{4})[_\-]?Q(\d)` at the head: `(quarter, year)` (the source
swaps the groups for this pattern). -/
def matchP2At (l : List Char) : Option (Nat × Nat) :=
  match fourDigitsSplit l with
  | some (y, rest) =>
    match skipSep rest with
    | c :: q :: _ => if c = 'Q' && isDigitChar q then some (digitVal q, y) else none
    | _ => none
  | none => none

/-- `(\d{4})` anywhere: year with the quarter defaulted to 1. -/
def matchP3At (l : List Char) : Option (Nat × Nat) :=
  (fourDigits l).map (fun y => (1, y))

/-- `re.search`: try the matcher at each start position, leftmost
success first. -/
def searchList (f : List Char → Option (Nat × Nat)) : List Char → Option (Nat × Nat)
  | [] => f []
  | l@(_ :: t) =>
    match f l with
    | some v => some v
    | none => searchList f t

/-- `HousingDataLoader.extract_quarter_year` (lines 300-327): the three
patterns tried in order over the string form of the input, defaulting
to `(1, 2023)`.  The `int` conversions of matched digit groups cannot
fail, and the enclosing `try/except` likewise yields `(1, 2023)` — the
function is total. -/
def extract_quarter_year (purchase_quarter : String) : Nat × Nat :=
  match searchList matchP1At purchase_quarter.data with
  | some qy => qy
  | none =>
    match searchList matchP2At purchase_quarter.data with
    | some qy => qy
    | none =>
      match searchList matchP3At purchase_quarter.data with
      | some qy => qy
      | none => (1, 2023)

/-- The membership list of `calculate_booking_flag` (line 331). -/
def booked_statuses : List String :=
  ["booked", "confirmed", "sold", "yes", "true", "1"]

/-- `HousingDataLoader.calculate_booking_flag` (lines 329-333). -/
def calculate_booking_flag (booking_status : String) : Nat :=
  if toLowerStr booking_status ∈ booked_statuses then 1 else 0

/-- `HousingDataLoader.categorize_price` (lines 335-346): the
`<=`-guarded if/elif chain. -/
def categorize_price (ticket_price : ℚ) : String :=
  if ticket_price ≤ 2 then "0-2Cr"
  else if ticket_price ≤ 5 then "2-5Cr"
  else if ticket_price ≤ 10 then "5-10Cr"
  else if ticket_price ≤ 20 then "10-20Cr"
  else "20Cr+"

/-- Modelled from the spec: the claim's reading of the price bucketing,
right-open bins [0,2), [2,5), [5,10), [10,20), [20,∞) (the spec's
"inclusive-low/exclusive-high"); values outside every bin are out of
range.  This is the comparator for the refinement part of the price
category claim, not a translation of the source. -/
def categorize_price_spec (p : ℚ) : String :=
  if 0 ≤ p ∧ p < 2 then "0-2Cr"
  else if 2 ≤ p ∧ p < 5 then "2-5Cr"
  else if 5 ≤ p ∧ p < 10 then "5-10Cr"
  else if 10 ≤ p ∧ p < 20 then "10-20Cr"
  else if 20 ≤ p then "20Cr+"
  else "OUT-OF-RANGE"

/-- `HousingDataLoader.determine_season` (lines 348-351). -/
def determine_season (quarter_number : Nat) : String :=
  if quarter_number = 1 then "Winter"
  else if quarter_number = 2 then "Spring"
  else if quarter_number = 3 then "Summer"
  else if quarter_number = 4 then "Monsoon"
  else "Winter"

/-- `HousingDataLoader.get_column_value` (lines 94-104): look the
canonical field up in the column map, read the row at the mapped
column, and fall back to the default when the field is unmapped, the
column is absent, or the value is NaN/None (`pd.isna`). -/
def get_column_value (column_map : List (String × String)) (row : Row)
    (column_type : String) (default_value : Cell) : Cell :=
  match column_map.lookup column_type with
  | some column_name =>
    match row.getCellOpt column_name with
    | some value => if value = Cell.null then default_value else value
    | none => default_value
  | none => default_value

/-! ## `HousingDataCleaner` pipeline stages (`src/housing_data_cleaner.py`)

Every stage takes the column map built by `_identify_columns`
(canonical field → actual column name) and the working table. -/

/-- `HousingDataCleaner.clean_price_column` (lines 116-159): stringify
the price column, apply the five text transforms, coerce to numeric,
fill parse failures with the column median, and expose the result under
the fixed name `Ticket_Price_Cr` (keeping the original values under
`original_<name>`) when the mapped name differs. -/
def clean_price_column (column_map : List (String × String)) (df : DataFrame) :
    DataFrame :=
  match column_map.lookup "price" with
  | none => df
  | some price_col =>
    let original_prices := df.getColCells price_col
    let df1 := df.setCol price_col (fun r => Cell.str (cellToStr (r.getCell price_col)))
    let df2 := df1.setCol price_col (fun r => mapStrCell stripCurrency (r.getCell price_col))
    let df3 := df2.setCol price_col (fun r => mapStrCell stripCr (r.getCell price_col))
    let df4 := df3.setCol price_col (fun r => mapStrCell stripLac (r.getCell price_col))
    let df5 := df4.setCol price_col (fun r => mapStrCell stripWs (r.getCell price_col))
    let df6 := df5.setCol price_col (fun r => mapStrCell stripAlpha (r.getCell price_col))
    let df7 := df6.setCol price_col (fun r => toNumericCell (r.getCell price_col))
    let price_median := median (numCells (df7.getColCells price_col))
    let df8 := df7.setCol price_col (fun r => fillNA (r.getCell price_col) price_median)
    if price_col = "Ticket_Price_Cr" then df8
    else
      let df9 := df8.setCol "Ticket_Price_Cr" (fun r => r.getCell price_col)
      df9.setColVals ("original_" ++ price_col) original_prices

/-- `Series.mode()[0]` over the present values: a most frequent value,
ties resolved towards the smaller value in the sorted order pandas
returns (numeric order for numbers, lexicographic for text; the
homogeneous-column fragment).  `none` when every value is missing. -/
def cellBelow : Cell → Cell → Bool
  | Cell.num a, Cell.num b => a < b
  | Cell.str a, Cell.str b => a < b
  | Cell.num _, Cell.str _ => true
  | Cell.inf true, Cell.num _ => true
  | Cell.num _, Cell.inf false => true
  | _, _ => false

def modeCell (cells : List Cell) : Option Cell :=
  let present := cells.filter (fun c => !isNullCell c)
  present.foldl
    (fun acc c =>
      match acc with
      | none => some c
      | some b =>
        let cc := present.count c
        let cb := present.count b
        if cb < cc || (cc = cb && cellBelow c b) then some c else some b)
    none

/-- A column whose dtype is numeric (`float64`/`int64`): every cell is
a number, an infinity, or NaN. -/
def colIsNumeric (cells : List Cell) : Bool :=
  cells.all (fun c =>
    match c with
    | Cell.num _ => true
    | Cell.inf _ => true
    | Cell.null => true
    | Cell.str _ => false)

/-- The imputation of one mapped column (`handle_missing_values`,
lines 166-191): median for the numeric fields `price`/`amenity`,
`"Not Booked"` for `booking_status`, mode (or `"Unknown"` when the
column is all-null) for the other categorical fields. -/
def imputeMappedCol (df : DataFrame) (std actual : String) : DataFrame :=
  if actual ∈ df.cols then
    let cells := df.getColCells actual
    if cells.any isNullCell then
      if std = "price" ∨ std = "amenity" then
        df.setCol actual (fun r => fillNA (r.getCell actual) (median (numCells cells)))
      else if std = "booking_status" then
        df.setCol actual (fun r => fillNAStr (r.getCell actual) "Not Booked")
      else
        match modeCell cells with
        | some m =>
          df.setCol actual (fun r =>
            match r.getCell actual with
            | Cell.null => m
            | c => c)
        | none => df.setCol actual (fun r => fillNAStr (r.getCell actual) "Unknown")
    else df
  else df

/-- The imputation of one unmapped column (`handle_missing_values`,
lines 194-201): median for numeric dtype, `"Unknown"` otherwise. -/
def imputeOtherCol (df : DataFrame) (c : String) : DataFrame :=
  let cells := df.getColCells c
  if cells.any isNullCell then
    if colIsNumeric cells then
      df.setCol c (fun r => fillNA (r.getCell c) (median (numCells cells)))
    else df.setCol c (fun r => fillNAStr (r.getCell c) "Unknown")
  else df

/-- `HousingDataCleaner.handle_missing_values` (lines 161-201). -/
def handle_missing_values (column_map : List (String × String)) (df : DataFrame) :
    DataFrame :=
  let df1 := column_map.foldl (fun d p => imputeMappedCol d p.1 p.2) df
  (df1.cols.filter (fun c => !(column_map.any (fun p => p.2 == c)))).foldl
    imputeOtherCol df1

/-- Python `str.title` on the ASCII letters: the first letter of each
letter run upper-cased, the rest lower-cased. -/
def titleList : Bool → List Char → List Char
  | _, [] => []
  | prevLetter, c :: t =>
    if isAsciiLetter c then
      (if prevLetter then charLow c else charUp c) :: titleList true t
    else c :: titleList false t

/-- Python `str.strip` (trim whitespace at both ends). -/
def stripEnds (l : List Char) : List Char :=
  ((l.dropWhile isWsChar).reverse.dropWhile isWsChar).reverse

/-- `astype(str).str.title().str.strip()` as one scalar function. -/
def titleStrip (s : String) : String := ⟨stripEnds (titleList false s.data)⟩

/-- The BHK join `str.replace(r'(\d)\s*BHK', r'\1BHK')`: drop the
whitespace between a digit and a following `BHK`.  Recursion is on a
fuel equal to the input length; every step consumes at least one
character, so the fuel never runs out on the initial call. -/
def joinBHKAux : Nat → List Char → List Char
  | 0, l => l
  | _ + 1, [] => []
  | fuel + 1, c :: t =>
    if isDigitChar c then
      match t.dropWhile isWsChar with
      | 'B' :: 'H' :: 'K' :: r => c :: 'B' :: 'H' :: 'K' :: joinBHKAux fuel r
      | _ => c :: joinBHKAux fuel t
    else c :: joinBHKAux fuel t

def joinBHK (s : String) : String := ⟨joinBHKAux s.data.length s.data⟩

/-- The per-field body of `normalize_text_fields` (lines 203-219). -/
def normalizeOneText (column_map : List (String × String)) (d : DataFrame)
    (std : String) : DataFrame :=
  match column_map.lookup std with
  | some actual =>
    if actual ∈ d.cols then
      let d1 := d.setCol actual (fun r => Cell.str (titleStrip (cellToStr (r.getCell actual))))
      if std = "configuration" then
        let d2 := d1.setCol actual (fun r => mapStrCell toUpperStr (r.getCell actual))
        d2.setCol actual (fun r => mapStrCell joinBHK (r.getCell actual))
      else d1
    else d
  | none => d

/-- `HousingDataCleaner.normalize_text_fields` (lines 203-219). -/
def normalize_text_fields (column_map : List (String × String)) (df : DataFrame) :
    DataFrame :=
  ["configuration", "micro_market", "builder", "booking_status"].foldl
    (normalizeOneText column_map) df

/-! ## `create_new_features` (lines 221-299) -/

/-- The membership test of the `Booking_Flag` lambda (line 229):
`1 if str(x).lower() in ['booked', 'confirmed', 'sold', 'yes'] else 0`.
Note: unlike the loader's `booked_statuses`, this list has no
`"true"`/`"1"`. -/
def cleanerBookingFlag (x : String) : Nat :=
  if toLowerStr x ∈ ["booked", "confirmed", "sold", "yes"] then 1 else 0

/-- The enhanced area table of `create_new_features` (lines 240-244),
keyed for the exact-match `Series.map`. -/
def cleaner_area_map : List (String × ℚ) :=
  [("1BHK", 650), ("2BHK", 950), ("3BHK", 1250), ("4BHK", 1600),
   ("5BHK", 2100), ("STUDIO", 400), ("1RK", 350), ("2BHK+STUDY", 1100),
   ("3BHK+STUDY", 1400), ("4BHK+STUDY", 1800), ("UNKNOWN", 1000)]

/-- `df[config_col].map(area_map).fillna(1000)` elementwise: exact
dictionary lookup of the cell value, every non-key (including NaN and
non-string cells) filled with 1000. -/
def cleanerCarpetArea (c : Cell) : ℚ :=
  match c with
  | Cell.str s => (cleaner_area_map.lookup s).getD 1000
  | _ => 1000

/-- `(price * 10000000) / area` elementwise (line 256): IEEE float
semantics — an unguarded division, so a zero area yields a signed
infinity (or NaN for 0/0); any non-numeric operand propagates NaN. -/
def cleanerPricePerSqft : Cell → Cell → Cell
  | Cell.num p, Cell.num a =>
    if a = 0 then
      if 0 < p then Cell.inf false
      else if p < 0 then Cell.inf true
      else Cell.null
    else Cell.num ((p * 10000000) / a)
  | _, _ => Cell.null

/-- `str.extract(r'Q(\d)[_\-]?(\d{4})')` then
`pd.to_numeric(·).fillna(default)` for one group, elementwise: only
pattern 1 is consulted (the alternative `(\d{4})` branch of the source
is reachable solely for an empty table, where no column is written at
all, `extracted.empty` being false whenever rows exist). -/
def cleanerQuarterCell (c : Cell) : Cell :=
  match c with
  | Cell.str s =>
    match searchList matchP1At s.data with
    | some qy => Cell.num (qy.1 : ℚ)
    | none => Cell.num 1
  | _ => Cell.num 1

def cleanerYearCell (c : Cell) : Cell :=
  match c with
  | Cell.str s =>
    match searchList matchP1At s.data with
    | some qy => Cell.num (qy.2 : ℚ)
    | none => Cell.num 2023
  | _ => Cell.num 2023

/-- `pd.cut(·, bins=[0,2,5,10,20,inf], labels=[···], right=False)`
elementwise: right-open bins, values below 0 (and non-numeric cells)
give NaN, and `+inf` misses the right-open last bin. -/
def cutPrice (c : Cell) : Cell :=
  match c with
  | Cell.num p =>
    if 0 ≤ p ∧ p < 2 then Cell.str "0-2Cr"
    else if 2 ≤ p ∧ p < 5 then Cell.str "2-5Cr"
    else if 5 ≤ p ∧ p < 10 then Cell.str "5-10Cr"
    else if 10 ≤ p ∧ p < 20 then Cell.str "10-20Cr"
    else if 20 ≤ p then Cell.str "20Cr+"
    else Cell.null
  | _ => Cell.null

/-- `Quarter_Number.map(season_map).fillna('Winter')` elementwise
(lines 295-296). -/
def seasonCell (c : Cell) : Cell :=
  match c with
  | Cell.num q =>
    if q = 1 then Cell.str "Winter"
    else if q = 2 then Cell.str "Spring"
    else if q = 3 then Cell.str "Summer"
    else if q = 4 then Cell.str "Monsoon"
    else Cell.str "Winter"
  | _ => Cell.str "Winter"

/-- Step 1 of `create_new_features` (lines 225-235): the Booking_Flag
column, all-zero when no booking-status column is mapped and present. -/
def featureBookingFlag (column_map : List (String × String)) (df : DataFrame) :
    DataFrame :=
  match column_map.lookup "booking_status" with
  | some bcol =>
    if bcol ∈ df.cols then
      df.setCol "Booking_Flag"
        (fun r => Cell.num (cleanerBookingFlag (cellToStr (r.getCell bcol)) : ℚ))
    else df.setCol "Booking_Flag" (fun _ => Cell.num 0)
  | none => df.setCol "Booking_Flag" (fun _ => Cell.num 0)

/-- Step 2 of `create_new_features` (lines 237-252): Carpet_Area_Sqft,
created only when the column is absent. -/
def featureCarpetArea (column_map : List (String × String)) (df : DataFrame) :
    DataFrame :=
  if "Carpet_Area_Sqft" ∈ df.cols then df
  else
    match column_map.lookup "configuration" with
    | some ccol =>
      if ccol ∈ df.cols then
        df.setCol "Carpet_Area_Sqft" (fun r => Cell.num (cleanerCarpetArea (r.getCell ccol)))
      else df.setCol "Carpet_Area_Sqft" (fun _ => Cell.num 1000)
    | none => df.setCol "Carpet_Area_Sqft" (fun _ => Cell.num 1000)

/-- Step 3 of `create_new_features` (lines 254-257): Price_per_Sqft. -/
def featurePricePerSqft (df : DataFrame) : DataFrame :=
  if "Ticket_Price_Cr" ∈ df.cols ∧ "Carpet_Area_Sqft" ∈ df.cols then
    df.setCol "Price_per_Sqft"
      (fun r => cleanerPricePerSqft (r.getCell "Ticket_Price_Cr") (r.getCell "Carpet_Area_Sqft"))
  else df

/-- Step 4 of `create_new_features` (lines 259-282): Quarter_Number and
Year. -/
def featureQuarterYear (column_map : List (String × String)) (df : DataFrame) :
    DataFrame :=
  match column_map.lookup "purchase_quarter" with
  | some qcol =>
    if qcol ∈ df.cols then
      if df.rows.isEmpty then df
      else
        (df.setCol "Quarter_Number" (fun r => cleanerQuarterCell (r.getCell qcol))).setCol
          "Year" (fun r => cleanerYearCell (r.getCell qcol))
    else
      (df.setCol "Quarter_Number" (fun _ => Cell.num 1)).setCol
        "Year" (fun _ => Cell.num 2023)
  | none =>
    (df.setCol "Quarter_Number" (fun _ => Cell.num 1)).setCol
      "Year" (fun _ => Cell.num 2023)

/-- Step 5 of `create_new_features` (lines 284-291): Price_Category. -/
def featurePriceCategory (df : DataFrame) : DataFrame :=
  if "Ticket_Price_Cr" ∈ df.cols then
    df.setCol "Price_Category" (fun r => cutPrice (r.getCell "Ticket_Price_Cr"))
  else df

/-- Step 6 of `create_new_features` (lines 293-297): Season. -/
def featureSeason (df : DataFrame) : DataFrame :=
  if "Quarter_Number" ∈ df.cols then
    df.setCol "Season" (fun r => seasonCell (r.getCell "Quarter_Number"))
  else df

/-- `HousingDataCleaner.create_new_features` (lines 221-299): the six
numbered feature steps in source order. -/
def create_new_features (column_map : List (String × String)) (df : DataFrame) :
    DataFrame :=
  featureSeason (featurePriceCategory (featureQuarterYear column_map
    (featurePricePerSqft (featureCarpetArea column_map
      (featureBookingFlag column_map df)))))

/-- `HousingDataCleaner.validate_data` (lines 301-338): an audit that
only reads the table (null counts, dtypes, statistics go into the
report); the table itself is unchanged. -/
def validate_data (df : DataFrame) : DataFrame := df

/-! ## The orchestrator (`clean_data`, lines 80-113) -/

/-- Per-stage outcome recorded by the orchestrator's `try/except`. -/
inductive StageStatus where
  | success
  | failed (msg : String)
deriving DecidableEq, Repr

/-- One entry of the cleaning report: rows affected (initial row count
minus final row count) and the stage status. -/
structure StageReport where
  rows_affected : Int
  status : StageStatus
deriving DecidableEq, Repr

/-- Run one stage as the orchestrator does, recording the row-count
delta; the modelled stage bodies are total (no exception path is
reachable in this fragment), so the recorded status is `success`. -/
def runStage (df : DataFrame) (f : DataFrame → DataFrame) :
    DataFrame × StageReport :=
  let initial_rows : Int := df.rows.length
  let df' := f df
  (df', ⟨initial_rows - df'.rows.length, StageStatus.success⟩)

/-- `HousingDataCleaner.clean_data` (lines 80-113): the five stages in
their fixed order, accumulating the per-stage report. -/
def clean_data (column_map : List (String × String)) (df : DataFrame) :
    DataFrame × List (String × StageReport) :=
  let (d1, r1) := runStage df (clean_price_column column_map)
  let (d2, r2) := runStage d1 (handle_missing_values column_map)
  let (d3, r3) := runStage d2 (normalize_text_fields column_map)
  let (d4, r4) := runStage d3 (create_new_features column_map)
  let (d5, r5) := runStage d4 validate_data
  (d5, [("price_cleaning", r1), ("missing_values", r2), ("text_normalization", r3),
        ("feature_engineering", r4), ("data_validation", r5)])

/-! ## Derived notions used by the verification statements -/

/-- The effective per-value price parse of the Price Normalizer:
stringify, apply the five text transforms, parse as a decimal. -/
def parsePrice (c : Cell) : Option ℚ :=
  parseDecimal (cleanPriceText (cellToStr c))

/-- The successfully parsed price values of a column, in row order. -/
def parsedPrices (df : DataFrame) (pcol : String) : List ℚ :=
  (df.getColCells pcol).filterMap parsePrice

/-- The status the orchestrator records for the price-cleaning stage. -/
def priceStageStatus (column_map : List (String × String)) (df : DataFrame) :
    StageStatus :=
  (runStage df (clean_price_column column_map)).2.status

/-- A column map binding only the price field, for concrete runs. -/
def cmapPrice : List (String × String) := [("price", "Price")]

/-- A table whose price column has no parseable value at all. -/
def dfUnparseable : DataFrame :=
  ⟨["Price"], [[("Price", Cell.str "abc")], [("Price", Cell.str "xyz")]]⟩

/-- A table whose price column carries the values 1, 3, null, 5. -/
def dfMedianEx : DataFrame :=
  ⟨["Price"],
   [[("Price", Cell.str "1")], [("Price", Cell.str "3")],
    [("Price", Cell.null)], [("Price", Cell.str "5")]]⟩

/-- A column map binding only the purchase-quarter field. -/
def cmapQuarter : List (String × String) := [("purchase_quarter", "Quarter")]

/-- A one-row table whose purchase-quarter column holds `"2023-Q3"`. -/
def dfQuarterEx : DataFrame := ⟨["Quarter"], [[("Quarter", Cell.str "2023-Q3")]]⟩

/-! ## Row and column access lemmas -/

theorem Row.getCell_setCell_same (r : Row) (c : String) (v : Cell) :
    (r.setCell c v).getCell c = v := by
  induction r with
  | nil => simp [Row.setCell, Row.getCell, Row.getCellOpt, List.find?]
  | cons p t ih =>
    by_cases h : p.1 = c
    · simp [Row.setCell, h, Row.getCell, Row.getCellOpt, List.find?]
    · have hb : (p.1 == c) = false := beq_eq_false_iff_ne.mpr h
      simp only [Row.setCell, if_neg h]
      simpa [Row.getCell, Row.getCellOpt, List.find?, hb] using ih

theorem Row.getCell_setCell_ne (r : Row) (c c' : String) (v : Cell) (h : c' ≠ c) :
    (r.setCell c v).getCell c' = r.getCell c' := by
  have hb : (c == c') = false := beq_eq_false_iff_ne.mpr (Ne.symm h)
  induction r with
  | nil =>
    simp [Row.setCell, Row.getCell, Row.getCellOpt, List.find?, hb]
  | cons p t ih =>
    by_cases hp : p.1 = c
    · have hp' : (p.1 == c') = false := by
        rw [hp]; exact hb
      simp [Row.setCell, if_pos hp, Row.getCell, Row.getCellOpt, List.find?, hb, hp, hp']
    · simp only [Row.setCell, if_neg hp]
      by_cases hp' : p.1 = c'
      · simp [Row.getCell, Row.getCellOpt, List.find?, hp']
      · have hb' : (p.1 == c') = false := beq_eq_false_iff_ne.mpr hp'
        simpa [Row.getCell, Row.getCellOpt, List.find?, hb'] using ih

theorem rows_setCol (df : DataFrame) (c : String) (f : Row → Cell) :
    (df.setCol c f).rows = df.rows.map (fun r => r.setCell c (f r)) := rfl

theorem length_rows_setCol (df : DataFrame) (c : String) (f : Row → Cell) :
    (df.setCol c f).rows.length = df.rows.length := by
  simp [DataFrame.setCol]

theorem length_setColValsRows (rs : List Row) (vs : List Cell) (c : String) :
    (setColValsRows rs vs c).length = rs.length := by
  induction rs generalizing vs with
  | nil => simp [setColValsRows]
  | cons r t ih =>
    cases vs with
    | nil => simp [setColValsRows, ih]
    | cons v vt => simp [setColValsRows, ih]

theorem length_rows_setColVals (df : DataFrame) (c : String) (vs : List Cell) :
    (df.setColVals c vs).rows.length = df.rows.length := by
  simp [DataFrame.setColVals, length_setColValsRows]

theorem getColCells_setCol_self (df : DataFrame) (c : String) (g : Cell → Cell) :
    (df.setCol c (fun r => g (r.getCell c))).getColCells c = (df.getColCells c).map g := by
  simp [DataFrame.setCol, DataFrame.getColCells, List.map_map, Function.comp,
    Row.getCell_setCell_same]

theorem getColCells_setCol_ne (df : DataFrame) (c c' : String) (f : Row → Cell)
    (h : c' ≠ c) :
    (df.setCol c f).getColCells c' = df.getColCells c' := by
  simp [DataFrame.setCol, DataFrame.getColCells, List.map_map, Function.comp,
    Row.getCell_setCell_ne _ _ _ _ h]

theorem getCell_setColValsRows_ne (rs : List Row) (vs : List Cell) (c c' : String)
    (h : c' ≠ c) :
    (setColValsRows rs vs c).map (fun r => r.getCell c') =
      rs.map (fun r => r.getCell c') := by
  induction rs generalizing vs with
  | nil => simp [setColValsRows]
  | cons r t ih =>
    cases vs with
    | nil => simp [setColValsRows, Row.getCell_setCell_ne _ _ _ _ h, ih]
    | cons v vt => simp [setColValsRows, Row.getCell_setCell_ne _ _ _ _ h, ih]

theorem getColCells_setColVals_ne (df : DataFrame) (c c' : String) (vs : List Cell)
    (h : c' ≠ c) :
    (df.setColVals c vs).getColCells c' = df.getColCells c' := by
  simp [DataFrame.setColVals, DataFrame.getColCells,
    getCell_setColValsRows_ne _ _ _ _ h]

theorem foldl_rows_length {β : Type} (g : DataFrame → β → DataFrame)
    (h : ∀ d b, (g d b).rows.length = d.rows.length) :
    ∀ (l : List β) (d : DataFrame), (l.foldl g d).rows.length = d.rows.length := by
  intro l
  induction l with
  | nil => intro d; rfl
  | cons b t ih => intro d; rw [List.foldl_cons, ih, h]

/-! ## Stage-wise row-count lemmas -/

theorem length_clean_price_column (cmap : List (String × String)) (df : DataFrame) :
    (clean_price_column cmap df).rows.length = df.rows.length := by
  unfold clean_price_column
  cases h : cmap.lookup "price" with
  | none => rfl
  | some pcol =>
    by_cases hp : pcol = "Ticket_Price_Cr" <;>
      simp [hp, length_rows_setCol, length_rows_setColVals]

theorem length_imputeMappedCol (df : DataFrame) (std actual : String) :
    (imputeMappedCol df std actual).rows.length = df.rows.length := by
  simp only [imputeMappedCol]
  repeat' split
  all_goals simp [length_rows_setCol]

theorem length_imputeOtherCol (df : DataFrame) (c : String) :
    (imputeOtherCol df c).rows.length = df.rows.length := by
  simp only [imputeOtherCol]
  repeat' split
  all_goals simp [length_rows_setCol]

theorem length_handle_missing_values (cmap : List (String × String)) (df : DataFrame) :
    (handle_missing_values cmap df).rows.length = df.rows.length := by
  unfold handle_missing_values
  rw [foldl_rows_length imputeOtherCol (fun d b => length_imputeOtherCol d b)]
  exact foldl_rows_length _ (fun d b => length_imputeMappedCol d b.1 b.2) cmap df

theorem length_normalizeOneText (cmap : List (String × String)) (d : DataFrame)
    (std : String) :
    (normalizeOneText cmap d std).rows.length = d.rows.length := by
  unfold normalizeOneText
  repeat' split
  all_goals simp [length_rows_setCol]

theorem length_normalize_text_fields (cmap : List (String × String)) (df : DataFrame) :
    (normalize_text_fields cmap df).rows.length = df.rows.length :=
  foldl_rows_length _ (fun d b => length_normalizeOneText cmap d b) _ df

theorem length_featureBookingFlag (cmap : List (String × String)) (df : DataFrame) :
    (featureBookingFlag cmap df).rows.length = df.rows.length := by
  simp only [featureBookingFlag]
  repeat' split
  all_goals simp [length_rows_setCol]

theorem length_featureCarpetArea (cmap : List (String × String)) (df : DataFrame) :
    (featureCarpetArea cmap df).rows.length = df.rows.length := by
  simp only [featureCarpetArea]
  repeat' split
  all_goals simp [length_rows_setCol]

theorem length_featurePricePerSqft (df : DataFrame) :
    (featurePricePerSqft df).rows.length = df.rows.length := by
  simp only [featurePricePerSqft]
  repeat' split
  all_goals simp [length_rows_setCol]

theorem length_featureQuarterYear (cmap : List (String × String)) (df : DataFrame) :
    (featureQuarterYear cmap df).rows.length = df.rows.length := by
  simp only [featureQuarterYear]
  repeat' split
  all_goals simp [length_rows_setCol]

theorem length_featurePriceCategory (df : DataFrame) :
    (featurePriceCategory df).rows.length = df.rows.length := by
  simp only [featurePriceCategory]
  repeat' split
  all_goals simp [length_rows_setCol]

theorem length_featureSeason (df : DataFrame) :
    (featureSeason df).rows.length = df.rows.length := by
  simp only [featureSeason]
  repeat' split
  all_goals simp [length_rows_setCol]

theorem length_create_new_features (cmap : List (String × String)) (df : DataFrame) :
    (create_new_features cmap df).rows.length = df.rows.length := by
  simp only [create_new_features]
  rw [length_featureSeason, length_featurePriceCategory, length_featureQuarterYear,
    length_featurePricePerSqft, length_featureCarpetArea, length_featureBookingFlag]

theorem length_validate_data (df : DataFrame) :
    (validate_data df).rows.length = df.rows.length := rfl

/-- C5 — Row-count invariance: for every input table and column map,
each pipeline stage (price cleaning, missing-value handling, text
normalization, feature engineering, validation) preserves the number of
rows, the full pipeline preserves it end to end, and every stage entry
of the cleaning report records zero rows affected. -/
theorem row_count_invariance (cmap : List (String × String)) (df : DataFrame) :
    (clean_price_column cmap df).rows.length = df.rows.length ∧
    (handle_missing_values cmap df).rows.length = df.rows.length ∧
    (normalize_text_fields cmap df).rows.length = df.rows.length ∧
    (create_new_features cmap df).rows.length = df.rows.length ∧
    (validate_data df).rows.length = df.rows.length ∧
    ((clean_data cmap df).1).rows.length = df.rows.length ∧
    ((clean_data cmap df).2).all (fun e => e.2.rows_affected == 0) = true := by
  refine ⟨length_clean_price_column cmap df, length_handle_missing_values cmap df,
    length_normalize_text_fields cmap df, length_create_new_features cmap df, rfl, ?_, ?_⟩
  · simp [clean_data, runStage, validate_data, length_clean_price_column,
      length_handle_missing_values, length_normalize_text_fields,
      length_create_new_features]
  · simp [clean_data, runStage, validate_data, length_clean_price_column,
      length_handle_missing_values, length_normalize_text_fields,
      length_create_new_features]

/-! ## C1 — carpet area -/

theorem findArea_area_map_ne (u : List Char) :
    findArea area_map u ≠ some 1100 ∧ findArea area_map u ≠ some 1400 ∧
      findArea area_map u ≠ some 1800 := by
  have h2 : "2BHK".data <:+: "2BHK+STUDY".data :=
    ⟨[], ('+' :: 'S' :: 'T' :: 'U' :: 'D' :: 'Y' :: []), rfl⟩
  have h3 : "3BHK".data <:+: "3BHK+STUDY".data :=
    ⟨[], ('+' :: 'S' :: 'T' :: 'U' :: 'D' :: 'Y' :: []), rfl⟩
  have h4 : "4BHK".data <:+: "4BHK+STUDY".data :=
    ⟨[], ('+' :: 'S' :: 'T' :: 'U' :: 'D' :: 'Y' :: []), rfl⟩
  by_cases c1 : "1BHK".data <:+: u
  · simp [findArea, area_map, c1]
  by_cases c2 : "2BHK".data <:+: u
  · simp [findArea, area_map, c1, c2]
  by_cases c3 : "3BHK".data <:+: u
  · simp [findArea, area_map, c1, c2, c3]
  by_cases c4 : "4BHK".data <:+: u
  · simp [findArea, area_map, c1, c2, c3, c4]
  by_cases c5 : "5BHK".data <:+: u
  · simp [findArea, area_map, c1, c2, c3, c4, c5]
  by_cases c6 : "STUDIO".data <:+: u
  · simp [findArea, area_map, c1, c2, c3, c4, c5, c6]
  by_cases c7 : "1RK".data <:+: u
  · simp [findArea, area_map, c1, c2, c3, c4, c5, c6, c7]
  have c8 : ¬("2BHK+STUDY".data <:+: u) := fun h => c2 (h2.trans h)
  have c9 : ¬("3BHK+STUDY".data <:+: u) := fun h => c3 (h3.trans h)
  have c10 : ¬("4BHK+STUDY".data <:+: u) := fun h => c4 (h4.trans h)
  simp [findArea, area_map, c1, c2, c3, c4, c5, c6, c7, c8, c9, c10]

/-- C1 — Carpet area lookup: the loop of `calculate_carpet_area` takes
the first substring match in table order, so the shorter pattern `2BHK`
shadows `2BHK+STUDY`: the configuration `"2BHK+Study"` yields 950, not
the claimed 1100, and the areas 1100, 1400, 1800 are unreachable for
every input (the `+STUDY` table entries are dead).  `"3BHK"` yields
1250 and unmatched text yields the default 1000 as claimed, and the
cleaner's exact-match table does send `"2BHK+STUDY"` to 1100. -/
theorem carpet_area_shadowing :
    calculate_carpet_area "2BHK+Study" = 950 ∧
    calculate_carpet_area "3BHK" = 1250 ∧
    calculate_carpet_area "Villa" = 1000 ∧
    cleanerCarpetArea (Cell.str "2BHK+STUDY") = 1100 ∧
    ∀ s : String, calculate_carpet_area s ≠ 1100 ∧
      calculate_carpet_area s ≠ 1400 ∧ calculate_carpet_area s ≠ 1800 := by
  refine ⟨by decide, by decide, by decide, by decide, ?_⟩
  intro s
  have h := findArea_area_map_ne (toUpperStr s).data
  unfold calculate_carpet_area
  cases hf : findArea area_map (toUpperStr s).data with
  | none => simp
  | some a =>
    rw [hf] at h
    refine ⟨?_, ?_, ?_⟩ <;> intro ha <;> subst ha <;> simp_all

/-! ## C2 — booking flag -/

/-- C2 counterexample: the `Booking_Flag` lambda of
`create_new_features` tests only {booked, confirmed, sold, yes}, so the
status `"1"` — a member of the claim's six-element set — is flagged 0,
refuting the claimed iff for the `Booking_Flag` column. -/
theorem booking_flag_claim_cex :
    cleanerBookingFlag "1" = 0 ∧ toLowerStr "1" ∈ booked_statuses ∧
    ¬(cleanerBookingFlag "1" = 1 ↔ toLowerStr "1" ∈ booked_statuses) := by
  decide

/-- C2 amended — Booking flags: the loader's `calculate_booking_flag`
is 1 exactly when the lower-cased status is one of
{booked, confirmed, sold, yes, true, 1}; the cleaner's `Booking_Flag`
column tests only {booked, confirmed, sold, yes}, so `"true"` and `"1"`
yield 0 there.  `"BOOKED"`→1 in both, `"pending"`→0, `""`→0, and
`"1"`→1 only in the loader. -/
theorem booking_flag_amended :
    (∀ s : String,
      (calculate_booking_flag s = 1 ↔ toLowerStr s ∈ booked_statuses) ∧
      (cleanerBookingFlag s = 1 ↔
        toLowerStr s ∈ ["booked", "confirmed", "sold", "yes"])) ∧
    calculate_booking_flag "BOOKED" = 1 ∧ calculate_booking_flag "1" = 1 ∧
    calculate_booking_flag "true" = 1 ∧ calculate_booking_flag "pending" = 0 ∧
    calculate_booking_flag "" = 0 ∧ cleanerBookingFlag "BOOKED" = 1 ∧
    cleanerBookingFlag "true" = 0 ∧ cleanerBookingFlag "pending" = 0 ∧
    cleanerBookingFlag "" = 0 := by
  refine ⟨?_, by decide, by decide, by decide, by decide, by decide, by decide,
    by decide, by decide, by decide⟩
  intro s
  constructor
  · unfold calculate_booking_flag
    split <;> simp_all
  · unfold cleanerBookingFlag
    split <;> simp_all

/-! ## C3, C10 — quarter/year parsing -/

theorem searchList_eq_none (f : List Char → Option (Nat × Nat))
    (P : List Char → Prop) (hP : ∀ l, P l → f l = none)
    (hTail : ∀ a t, P (a :: t) → P t) :
    ∀ l, P l → searchList f l = none := by
  intro l
  induction l with
  | nil => intro h; simpa [searchList] using hP [] h
  | cons a t ih =>
    intro h
    simp only [searchList]
    rw [hP _ h]
    exact ih (hTail a t h)

theorem searchList_some (f : List Char → Option (Nat × Nat)) (l : List Char)
    (v : Nat × Nat) (h : searchList f l = some v) : ∃ t, f t = some v := by
  induction l with
  | nil => exact ⟨[], by simpa [searchList] using h⟩
  | cons a t ih =>
    simp only [searchList] at h
    cases hf : f (a :: t) with
    | some w => exact ⟨a :: t, by rw [hf]; rw [hf] at h; exact h⟩
    | none => rw [hf] at h; exact ih h

theorem matchP1At_none (l : List Char) (h : ∀ c ∈ l, isDigitChar c = false) :
    matchP1At l = none := by
  match l with
  | [] => rfl
  | [c] => rfl
  | c :: d :: rest =>
    have hd : isDigitChar d = false := h d (by simp)
    simp [matchP1At, hd]

theorem fourDigitsSplit_none (l : List Char)
    (h : ∀ c ∈ l, isDigitChar c = false) : fourDigitsSplit l = none := by
  match l with
  | [] => rfl
  | [_] => rfl
  | [_, _] => rfl
  | [_, _, _] => rfl
  | a :: b :: c :: d :: t =>
    have ha : isDigitChar a = false := h a (by simp)
    simp [fourDigitsSplit, ha]

theorem matchP2At_none (l : List Char) (h : ∀ c ∈ l, isDigitChar c = false) :
    matchP2At l = none := by
  simp [matchP2At, fourDigitsSplit_none l h]

theorem matchP3At_none (l : List Char) (h : ∀ c ∈ l, isDigitChar c = false) :
    matchP3At l = none := by
  simp [matchP3At, fourDigits, fourDigitsSplit_none l h]

/-- C3 counterexample: the cleaner's `Quarter_Number`/`Year` derivation
consults only the pattern `Q(\d)[_\-]?(\d{4})` per row (the
either-order and bare-year branches are dead for non-empty tables), so
for the purchase-quarter string `"2023-Q3"` the pipeline's
`Quarter_Number` is the fill default 1, not the claimed 3 — while the
loader's `extract_quarter_year` does return (3, 2023), exhibiting the
divergence between the claim's two cited implementations. -/
theorem quarter_year_claim_cex :
    (featureQuarterYear cmapQuarter dfQuarterEx).getColCells "Quarter_Number" =
      [Cell.num 1] ∧
    (featureQuarterYear cmapQuarter dfQuarterEx).getColCells "Year" =
      [Cell.num 2023] ∧
    Cell.num (1 : ℚ) ≠ Cell.num 3 ∧
    extract_quarter_year "2023-Q3" = (3, 2023) := by decide

/-- C3 amended — Quarter/year parsing: the loader's
`extract_quarter_year` tries, in order, `Q<digit>` with a 4-digit year
(either order, optional `_`/`-` separator), then a bare 4-digit year
with quarter defaulting to 1; `"Q1_2023"`→(1,2023),
`"2023-Q3"`→(3,2023), `"2023"`→(1,2023), `"garbage"`→(1,2023), and
every digit-free string — on which all three patterns necessarily
fail — yields the default (1, 2023).  The cleaner's in-pipeline
`Quarter_Number`/`Year` derivation, by contrast, tries only the
`Q<digit>` separator-year pattern and fills every non-match with
quarter 1 and year 2023, so `"2023-Q3"` and `"2023"` both yield
(1, 2023) there. -/
theorem quarter_year_parse_amended :
    extract_quarter_year "Q1_2023" = (1, 2023) ∧
    extract_quarter_year "2023-Q3" = (3, 2023) ∧
    extract_quarter_year "2023" = (1, 2023) ∧
    extract_quarter_year "garbage" = (1, 2023) ∧
    (∀ s : String, (∀ c ∈ s.data, isDigitChar c = false) →
      extract_quarter_year s = (1, 2023)) ∧
    cleanerQuarterCell (Cell.str "Q1_2023") = Cell.num 1 ∧
    cleanerYearCell (Cell.str "Q1_2023") = Cell.num 2023 ∧
    cleanerQuarterCell (Cell.str "2023") = Cell.num 1 ∧
    cleanerYearCell (Cell.str "2023") = Cell.num 2023 ∧
    (∀ s : String, searchList matchP1At s.data = none →
      cleanerQuarterCell (Cell.str s) = Cell.num 1 ∧
      cleanerYearCell (Cell.str s) = Cell.num 2023) := by
  refine ⟨by decide, by decide, by decide, by decide, ?_, by decide, by decide,
    by decide, by decide, ?_⟩
  · intro s hs
    have hTail : ∀ (a : Char) (t : List Char),
        (∀ c ∈ a :: t, isDigitChar c = false) → ∀ c ∈ t, isDigitChar c = false :=
      fun a t ht c hc => ht c (List.mem_cons_of_mem a hc)
    unfold extract_quarter_year
    rw [searchList_eq_none matchP1At _ matchP1At_none hTail s.data hs,
      searchList_eq_none matchP2At _ matchP2At_none hTail s.data hs,
      searchList_eq_none matchP3At _ matchP3At_none hTail s.data hs]
  · intro s h
    simp [cleanerQuarterCell, cleanerYearCell, h]

/-- C3 witness: the loader's digit-free default and the cleaner's
no-match fill, both at `"xy"`. -/
theorem quarter_year_parse_amended_witness :
    extract_quarter_year "xy" = (1, 2023) ∧
    (cleanerQuarterCell (Cell.str "xy") = Cell.num 1 ∧
      cleanerYearCell (Cell.str "xy") = Cell.num 2023) :=
  ⟨quarter_year_parse_amended.2.2.2.2.1 "xy" (by decide),
    quarter_year_parse_amended.2.2.2.2.2.2.2.2.2 "xy" (by decide)⟩

theorem digitVal_le (c : Char) (h : isDigitChar c = true) : digitVal c ≤ 9 := by
  simp only [isDigitChar, Bool.and_eq_true, decide_eq_true_eq] at h
  simp only [digitVal]
  omega

theorem fourDigitsSplit_bound (l : List Char) (y : Nat) (t : List Char)
    (h : fourDigitsSplit l = some (y, t)) : y ≤ 9999 := by
  match l with
  | [] => simp [fourDigitsSplit] at h
  | [_] => simp [fourDigitsSplit] at h
  | [_, _] => simp [fourDigitsSplit] at h
  | [_, _, _] => simp [fourDigitsSplit] at h
  | a :: b :: c :: d :: t' =>
    simp only [fourDigitsSplit] at h
    split at h
    · rename_i hcond
      simp only [Option.some.injEq, Prod.mk.injEq] at h
      obtain ⟨hy, -⟩ := h
      simp only [Bool.and_eq_true] at hcond
      obtain ⟨⟨⟨ha, hb⟩, hc⟩, hd⟩ := hcond
      have h1 := digitVal_le a ha
      have h2 := digitVal_le b hb
      have h3 := digitVal_le c hc
      have h4 := digitVal_le d hd
      omega
    · exact absurd h (by simp)

theorem fourDigits_bound (l : List Char) (y : Nat) (h : fourDigits l = some y) :
    y ≤ 9999 := by
  unfold fourDigits at h
  cases hs : fourDigitsSplit l with
  | none => rw [hs] at h; simp at h
  | some p =>
    rw [hs] at h
    simp only [Option.map_some', Option.some.injEq] at h
    subst h
    exact fourDigitsSplit_bound l p.1 p.2 (by rw [hs])

theorem matchP1At_bound (l : List Char) (q y : Nat)
    (h : matchP1At l = some (q, y)) : q ≤ 9 ∧ y ≤ 9999 := by
  match l with
  | [] => simp [matchP1At] at h
  | [_] => simp [matchP1At] at h
  | c :: d :: rest =>
    simp only [matchP1At] at h
    split at h
    · rename_i hcond
      simp only [Bool.and_eq_true, decide_eq_true_eq] at hcond
      cases hf : fourDigits (skipSep rest) with
      | none => rw [hf] at h; simp at h
      | some y' =>
        rw [hf] at h
        simp only [Option.map_some', Option.some.injEq, Prod.mk.injEq] at h
        obtain ⟨hq, hy⟩ := h
        subst hq; subst hy
        exact ⟨digitVal_le d hcond.2, fourDigits_bound _ _ hf⟩
    · exact absurd h (by simp)

theorem matchP2At_bound (l : List Char) (q y : Nat)
    (h : matchP2At l = some (q, y)) : q ≤ 9 ∧ y ≤ 9999 := by
  simp only [matchP2At] at h
  cases hs : fourDigitsSplit l with
  | none => rw [hs] at h; simp at h
  | some p =>
    obtain ⟨y0, rest0⟩ := p
    rw [hs] at h
    dsimp only at h
    cases hp : skipSep rest0 with
    | nil => rw [hp] at h; exact Option.noConfusion h
    | cons c rest =>
      cases rest with
      | nil => rw [hp] at h; exact Option.noConfusion h
      | cons d rest' =>
        rw [hp] at h
        dsimp only at h
        split at h
        · rename_i hcond
          simp only [Bool.and_eq_true, decide_eq_true_eq] at hcond
          simp only [Option.some.injEq, Prod.mk.injEq] at h
          obtain ⟨hq, hy⟩ := h
          subst hq; subst hy
          exact ⟨digitVal_le d hcond.2,
            fourDigitsSplit_bound l y0 rest0 (by rw [hs])⟩
        · exact absurd h (by simp)

theorem matchP3At_bound (l : List Char) (q y : Nat)
    (h : matchP3At l = some (q, y)) : q ≤ 9 ∧ y ≤ 9999 := by
  simp only [matchP3At] at h
  cases hf : fourDigits l with
  | none => rw [hf] at h; simp at h
  | some y' =>
    rw [hf] at h
    simp only [Option.map_some', Option.some.injEq, Prod.mk.injEq] at h
    obtain ⟨hq, hy⟩ := h
    subst hq; subst hy
    exact ⟨by omega, fourDigits_bound _ _ hf⟩

/-- C10 — Totality of quarter/year extraction: on every string (the
`str`-coerced input), `extract_quarter_year` returns a pair of numbers
— a single-digit quarter and an at-most-4-digit year — with the default
(1, 2023) covering every failure path; no exception escapes (the
embedded function is total, the only fallible operations being the
digit-group conversions, which cannot fail on matched digits). -/
theorem extract_quarter_year_total (s : String) :
    ∃ q y, extract_quarter_year s = (q, y) ∧ q ≤ 9 ∧ y ≤ 9999 := by
  unfold extract_quarter_year
  cases h1 : searchList matchP1At s.data with
  | some qy =>
    obtain ⟨t, ht⟩ := searchList_some _ _ _ h1
    have hb := matchP1At_bound t qy.1 qy.2 (by rw [ht])
    exact ⟨qy.1, qy.2, by simp, hb.1, hb.2⟩
  | none =>
    cases h2 : searchList matchP2At s.data with
    | some qy =>
      obtain ⟨t, ht⟩ := searchList_some _ _ _ h2
      have hb := matchP2At_bound t qy.1 qy.2 (by rw [ht])
      exact ⟨qy.1, qy.2, by simp, hb.1, hb.2⟩
    | none =>
      cases h3 : searchList matchP3At s.data with
      | some qy =>
        obtain ⟨t, ht⟩ := searchList_some _ _ _ h3
        have hb := matchP3At_bound t qy.1 qy.2 (by rw [ht])
        exact ⟨qy.1, qy.2, by simp, hb.1, hb.2⟩
      | none => exact ⟨1, 2023, rfl, by omega, by omega⟩

/-! ## C4 — price category -/

/-- C4 counterexample: the claim asserts both right-open bins and
`categorize_price(2.0) = "0-2Cr"`, but a right-open binning puts 2.0 in
[2,5) labelled `2-5Cr`, while `categorize_price` — whose chain uses
`<=` — returns `0-2Cr` at 2.0: the two halves of the claim contradict
each other at the input 2, and the code disagrees with the claimed
right-open bins there. -/
theorem price_category_claim_cex :
    categorize_price 2 = "0-2Cr" ∧ categorize_price_spec 2 = "2-5Cr" ∧
    categorize_price 2 ≠ categorize_price_spec 2 := by decide

/-- C4 amended — Price bucketing: `categorize_price` uses left-open
right-closed bins (−∞,2], (2,5], (5,10], (10,20], (20,∞), so the
claimed examples hold (2→`0-2Cr`, 2.01→`2-5Cr`, 0→`0-2Cr`,
25→`20Cr+`); the cleaner's `pd.cut` `Price_Category`, by contrast, is
genuinely right-open — [0,2), [2,5), [5,10), [10,20), [20,∞), with
2→`2-5Cr` and negative prices out of range (NaN). -/
theorem price_category_amended (p : ℚ) :
    (p ≤ 2 → categorize_price p = "0-2Cr") ∧
    (2 < p → p ≤ 5 → categorize_price p = "2-5Cr") ∧
    (5 < p → p ≤ 10 → categorize_price p = "5-10Cr") ∧
    (10 < p → p ≤ 20 → categorize_price p = "10-20Cr") ∧
    (20 < p → categorize_price p = "20Cr+") ∧
    (0 ≤ p → p < 2 → cutPrice (Cell.num p) = Cell.str "0-2Cr") ∧
    (2 ≤ p → p < 5 → cutPrice (Cell.num p) = Cell.str "2-5Cr") ∧
    (5 ≤ p → p < 10 → cutPrice (Cell.num p) = Cell.str "5-10Cr") ∧
    (10 ≤ p → p < 20 → cutPrice (Cell.num p) = Cell.str "10-20Cr") ∧
    (20 ≤ p → cutPrice (Cell.num p) = Cell.str "20Cr+") ∧
    (p < 0 → cutPrice (Cell.num p) = Cell.null) ∧
    categorize_price 2 = "0-2Cr" ∧ categorize_price (201 / 100) = "2-5Cr" ∧
    categorize_price 0 = "0-2Cr" ∧ categorize_price 25 = "20Cr+" ∧
    cutPrice (Cell.num 2) = Cell.str "2-5Cr" := by
  refine ⟨?_, ?_, ?_, ?_, ?_, ?_, ?_, ?_, ?_, ?_, ?_,
    by decide, by norm_num [categorize_price], by decide, by decide, by decide⟩
  · intro h; simp only [categorize_price]; rw [if_pos h]
  · intro h1 h2
    simp only [categorize_price]
    rw [if_neg (by linarith), if_pos h2]
  · intro h1 h2
    simp only [categorize_price]
    rw [if_neg (by linarith), if_neg (by linarith), if_pos h2]
  · intro h1 h2
    simp only [categorize_price]
    rw [if_neg (by linarith), if_neg (by linarith), if_neg (by linarith), if_pos h2]
  · intro h1
    simp only [categorize_price]
    rw [if_neg (by linarith), if_neg (by linarith), if_neg (by linarith),
      if_neg (by linarith)]
  · intro h1 h2
    simp only [cutPrice]
    rw [if_pos ⟨h1, h2⟩]
  · intro h1 h2
    simp only [cutPrice]
    rw [if_neg (by rintro ⟨-, hh⟩; linarith), if_pos ⟨h1, h2⟩]
  · intro h1 h2
    simp only [cutPrice]
    rw [if_neg (by rintro ⟨-, hh⟩; linarith), if_neg (by rintro ⟨-, hh⟩; linarith),
      if_pos ⟨h1, h2⟩]
  · intro h1 h2
    simp only [cutPrice]
    rw [if_neg (by rintro ⟨-, hh⟩; linarith), if_neg (by rintro ⟨-, hh⟩; linarith),
      if_neg (by rintro ⟨-, hh⟩; linarith), if_pos ⟨h1, h2⟩]
  · intro h1
    simp only [cutPrice]
    rw [if_neg (by rintro ⟨-, hh⟩; linarith), if_neg (by rintro ⟨-, hh⟩; linarith),
      if_neg (by rintro ⟨-, hh⟩; linarith), if_neg (by rintro ⟨-, hh⟩; linarith),
      if_pos h1]
  · intro h1
    simp only [cutPrice]
    rw [if_neg (by rintro ⟨hh, -⟩; linarith), if_neg (by rintro ⟨hh, -⟩; linarith),
      if_neg (by rintro ⟨hh, -⟩; linarith), if_neg (by rintro ⟨hh, -⟩; linarith),
      if_neg (by intro hh; linarith)]

/-- C4 witness: the first conjunct of the amended bucketing at 1. -/
theorem price_category_amended_witness : categorize_price 1 = "0-2Cr" :=
  (price_category_amended 1).1 (by norm_num)

/-! ## C9 — price per square foot -/

/-- C9 counterexample: the cleaner's `Price_per_Sqft` is an unguarded
elementwise division, so a zero carpet area (possible when the input
table arrives with its own `Carpet_Area_Sqft` column) yields `+inf`,
not the claimed zero — a division by zero is performed and its result
propagated. -/
theorem price_per_sqft_claim_cex :
    cleanerPricePerSqft (Cell.num 2) (Cell.num 0) = Cell.inf false ∧
    cleanerPricePerSqft (Cell.num 2) (Cell.num 0) ≠ Cell.num 0 := by decide

theorem lookup_cleaner_area_pos (s : String) (v : ℚ)
    (h : cleaner_area_map.lookup s = some v) : 0 < v := by
  simp only [cleaner_area_map, List.lookup] at h
  repeat' split at h
  all_goals simp only [Option.some.injEq, reduceCtorEq] at h
  all_goals first
  | exact absurd h (by simp)
  | (subst h; norm_num)

/-- C9 amended — Price_per_Sqft: the loader's
`calculate_price_per_sqft` is guarded — price·10,000,000/area for a
positive area and 0.0 for area ≤ 0.  The cleaner's `Price_per_Sqft`
division is unguarded: it equals price·10,000,000/area for any nonzero
area and produces `+inf` (not zero) at area 0 with a positive price.
Both area derivations only ever produce positive areas, so the
division-by-zero case arises only from a pre-existing area column. -/
theorem price_per_sqft_amended (p : ℚ) (a : Int) :
    (0 < a → calculate_price_per_sqft p a = p * 10000000 / (a : ℚ)) ∧
    (a ≤ 0 → calculate_price_per_sqft p a = 0) ∧
    (∀ b : ℚ, b ≠ 0 → cleanerPricePerSqft (Cell.num p) (Cell.num b) =
      Cell.num (p * 10000000 / b)) ∧
    (0 < p → cleanerPricePerSqft (Cell.num p) (Cell.num 0) = Cell.inf false) ∧
    (∀ c : Cell, 0 < cleanerCarpetArea c) ∧
    (∀ s : String, 0 < calculate_carpet_area s) := by
  refine ⟨?_, ?_, ?_, ?_, ?_, ?_⟩
  · intro h
    simp only [calculate_price_per_sqft]
    rw [if_pos h]
  · intro h
    simp only [calculate_price_per_sqft]
    rw [if_neg (not_lt.mpr h)]
  · intro b hb
    simp only [cleanerPricePerSqft]
    rw [if_neg hb]
  · intro hp
    simp [cleanerPricePerSqft, hp]
  · intro c
    cases c with
    | num q => simp [cleanerCarpetArea]
    | str s =>
      simp only [cleanerCarpetArea]
      cases hl : cleaner_area_map.lookup s with
      | none => simp [hl]
      | some v => simpa [hl] using lookup_cleaner_area_pos s v hl
    | inf b => simp [cleanerCarpetArea]
    | null => simp [cleanerCarpetArea]
  · intro s
    unfold calculate_carpet_area
    cases hf : findArea area_map (toUpperStr s).data with
    | none => norm_num
    | some a =>
      have key : ∀ (l : List (String × Nat)), (∀ q ∈ l, 0 < q.2) →
          ∀ u b, findArea l u = some b → 0 < b := by
        intro l
        induction l with
        | nil => intro _ u b hb; simp [findArea] at hb
        | cons q t ih =>
          intro hpos u b hb
          simp only [findArea] at hb
          split at hb
          · injection hb with hb; subst hb; exact hpos q (by simp)
          · exact ih (fun w hw => hpos w (List.mem_cons_of_mem q hw)) u b hb
      exact key area_map (by decide) _ a hf

/-- C9 witness: the guarded conjuncts at a concrete positive and
non-positive area. -/
theorem price_per_sqft_amended_witness :
    calculate_price_per_sqft 2 950 = 2 * 10000000 / ((950 : Int) : ℚ) ∧
    calculate_price_per_sqft 2 (-5) = 0 :=
  ⟨(price_per_sqft_amended 2 950).1 (by decide),
    (price_per_sqft_amended 2 (-5)).2.1 (by decide)⟩

/-! ## C8 — field-access helper -/

/-- C8 counterexample: `pd.isna("")` is false, so `get_column_value`
returns an empty-string value as-is instead of the supplied default —
the claim's "value … empty" default case does not exist in the code. -/
theorem get_column_value_claim_cex :
    get_column_value [("price", "Price")] [("Price", Cell.str "")] "price"
        (Cell.str "DEFAULT") = Cell.str "" ∧
    Cell.str "" ≠ Cell.str "DEFAULT" := by decide

/-- C8 amended — field-access helper: `get_column_value` returns the
row's value at the mapped column exactly when the field is bound in the
column map, the column is present in the row, and the value is not
NaN/None; it returns the supplied default when the field is unmapped,
the column is absent, or the value is NaN/None.  (A present empty
string is a value, not a default case.) -/
theorem get_column_value_amended (cmap : List (String × String)) (row : Row)
    (ct : String) (dflt : Cell) :
    (cmap.lookup ct = none → get_column_value cmap row ct dflt = dflt) ∧
    (∀ col, cmap.lookup ct = some col → row.getCellOpt col = none →
      get_column_value cmap row ct dflt = dflt) ∧
    (∀ col, cmap.lookup ct = some col → row.getCellOpt col = some Cell.null →
      get_column_value cmap row ct dflt = dflt) ∧
    (∀ col v, cmap.lookup ct = some col → row.getCellOpt col = some v →
      v ≠ Cell.null → get_column_value cmap row ct dflt = v) := by
  refine ⟨?_, ?_, ?_, ?_⟩
  · intro h
    simp [get_column_value, h]
  · intro col h1 h2
    simp [get_column_value, h1, h2]
  · intro col h1 h2
    simp [get_column_value, h1, h2]
  · intro col v h1 h2 h3
    simp [get_column_value, h1, h2, h3]

/-- C8 witness: a bound field with a present non-null value is returned
as-is. -/
theorem get_column_value_amended_witness :
    get_column_value [("price", "Price")] [("Price", Cell.str "5")] "price"
      Cell.null = Cell.str "5" :=
  (get_column_value_amended [("price", "Price")] [("Price", Cell.str "5")]
    "price" Cell.null).2.2.2 "Price" (Cell.str "5") (by decide) (by decide)
    (by decide)

/-! ## C6, C7 — price cleaning characterization -/

theorem numCells_map_toNumeric (l : List Cell) :
    numCells (l.map (fun c => toNumericCell (Cell.str (cleanPriceText (cellToStr c))))) =
      l.filterMap parsePrice := by
  induction l with
  | nil => rfl
  | cons a t ih =>
    have hx : toNumericCell (Cell.str (cleanPriceText (cellToStr a))) =
        match parsePrice a with
        | some q => Cell.num q
        | none => Cell.null := rfl
    simp only [List.map_cons, List.filterMap_cons, hx]
    cases hp : parsePrice a with
    | none => simpa [numCells, List.filterMap_cons] using ih
    | some q => simpa [numCells, List.filterMap_cons] using ih

theorem ne_original_append (pcol : String) : pcol ≠ "original_" ++ pcol := by
  intro h
  have hlen := congrArg String.length h
  rw [String.length_append] at hlen
  have h9 : ("original_" : String).length = 9 := by decide
  omega

theorem numCells_map_parse (rows : List Row) (pcol : String) :
    numCells (rows.map (fun r =>
        toNumericCell (Cell.str (stripAlpha (stripWs (stripLac (stripCr
          (stripCurrency (cellToStr (r.getCell pcol)))))))))) =
      (rows.map (fun r => r.getCell pcol)).filterMap parsePrice := by
  have h := numCells_map_toNumeric (rows.map (fun r => r.getCell pcol))
  simpa [List.map_map, Function.comp_def, cleanPriceText] using h

theorem getColCells_clean_price (cmap : List (String × String)) (df : DataFrame)
    (pcol : String) (h : cmap.lookup "price" = some pcol) :
    (clean_price_column cmap df).getColCells pcol =
      (df.getColCells pcol).map (fun c =>
        fillNA (toNumericCell (Cell.str (cleanPriceText (cellToStr c))))
          (median (df.getColCells pcol |>.filterMap parsePrice))) := by
  unfold clean_price_column
  rw [h]
  dsimp only
  by_cases hpt : pcol = "Ticket_Price_Cr"
  · rw [if_pos hpt]
    dsimp only [DataFrame.setCol, DataFrame.getColCells]
    simp only [List.map_map, Function.comp_def, Row.getCell_setCell_same, mapStrCell,
      cleanPriceText]
    rw [numCells_map_parse df.rows pcol]
  · rw [if_neg hpt]
    rw [getColCells_setColVals_ne _ _ _ _ (ne_original_append pcol),
      getColCells_setCol_ne _ _ _ _ hpt]
    dsimp only [DataFrame.setCol, DataFrame.getColCells]
    simp only [List.map_map, Function.comp_def, Row.getCell_setCell_same, mapStrCell,
      cleanPriceText]
    rw [numCells_map_parse df.rows pcol]

/-- C7 — Median backfill of failed price parses: after the five price
text transforms, every value of the price column that fails to parse as
a decimal becomes missing and the missing entries are filled with the
median of all successfully parsed values of the column (no fill happens
when no value parses); concretely, a price column holding 1, 3, null, 5
comes out as 1, 3, 3, 5 — the null filled with 3, the median of
{1, 3, 5}. -/
theorem price_median_backfill :
    (∀ (cmap : List (String × String)) (df : DataFrame) (pcol : String),
      cmap.lookup "price" = some pcol →
      (clean_price_column cmap df).getColCells pcol =
        (df.getColCells pcol).map (fun c =>
          match parsePrice c with
          | some q => Cell.num q
          | none =>
            match median (parsedPrices df pcol) with
            | some m => Cell.num m
            | none => Cell.null)) ∧
    (clean_price_column cmapPrice dfMedianEx).getColCells "Price" =
      [Cell.num 1, Cell.num 3, Cell.num 3, Cell.num 5] ∧
    median (parsedPrices dfMedianEx "Price") = some 3 := by
  refine ⟨?_, by decide, by decide⟩
  intro cmap df pcol h
  rw [getColCells_clean_price cmap df pcol h]
  have hfun : ∀ c : Cell,
      fillNA (toNumericCell (Cell.str (cleanPriceText (cellToStr c))))
        (median (df.getColCells pcol |>.filterMap parsePrice)) =
      (match parsePrice c with
        | some q => Cell.num q
        | none =>
          match median (parsedPrices df pcol) with
          | some m => Cell.num m
          | none => Cell.null) := by
    intro c
    cases hp : parsePrice c with
    | some q =>
      have hx : toNumericCell (Cell.str (cleanPriceText (cellToStr c))) = Cell.num q := by
        simp only [toNumericCell]
        unfold parsePrice at hp
        rw [hp]
      rw [hx]
      simp [fillNA]
    | none =>
      have hx : toNumericCell (Cell.str (cleanPriceText (cellToStr c))) = Cell.null := by
        simp only [toNumericCell]
        unfold parsePrice at hp
        rw [hp]
      rw [hx]
      cases hm : median (parsedPrices df pcol) with
      | some m =>
        unfold parsedPrices at hm
        simp [fillNA, hm]
      | none =>
        unfold parsedPrices at hm
        simp [fillNA, hm]
  exact List.map_congr_left (fun c _ => hfun c)

/-- C7 witness: the general conjunct applied to the 1, 3, null, 5
column with the price field mapped to `Price`. -/
theorem price_median_backfill_witness :
    (clean_price_column cmapPrice dfMedianEx).getColCells "Price" =
      (dfMedianEx.getColCells "Price").map (fun c =>
        match parsePrice c with
        | some q => Cell.num q
        | none =>
          match median (parsedPrices dfMedianEx "Price") with
          | some m => Cell.num m
          | none => Cell.null) :=
  price_median_backfill.1 cmapPrice dfMedianEx "Price" (by decide)

/-- C6 counterexample: on a price column with zero successful parses
(`"abc"`, `"xyz"`), the median is that of an empty set (NaN), yet the
stage reports plain success — no fatal configuration error is raised or
recorded; the claim's "treats … as a fatal configuration error … and
reports it" does not happen (the stage merely logs the NaN median as
info and leaves the column null). -/
theorem unparseable_price_claim_cex :
    parsedPrices dfUnparseable "Price" = [] ∧
    median (parsedPrices dfUnparseable "Price") = none ∧
    priceStageStatus cmapPrice dfUnparseable = StageStatus.success := by
  decide

/-- C6 amended — Fully unparseable price column: when zero values of
the price column parse, the empty-set median is NaN, `fillna(NaN)` is a
no-op, so the column is left entirely unfilled (all NaN) — but the
stage does not treat this as a fatal configuration error: it completes
and the orchestrator records success for it. -/
theorem unparseable_price_column :
    (∀ (cmap : List (String × String)) (df : DataFrame) (pcol : String),
      cmap.lookup "price" = some pcol → parsedPrices df pcol = [] →
      (∀ c ∈ (clean_price_column cmap df).getColCells pcol, c = Cell.null) ∧
      priceStageStatus cmap df = StageStatus.success) ∧
    (clean_price_column cmapPrice dfUnparseable).getColCells "Price" =
      [Cell.null, Cell.null] := by
  refine ⟨?_, by decide⟩
  intro cmap df pcol h hzero
  refine ⟨?_, rfl⟩
  intro c hc
  rw [getColCells_clean_price cmap df pcol h] at hc
  obtain ⟨a, ha, rfl⟩ := List.mem_map.mp hc
  have hnone : parsePrice a = none := by
    have := List.filterMap_eq_nil_iff.mp hzero
    exact this a ha
  have hx : toNumericCell (Cell.str (cleanPriceText (cellToStr a))) = Cell.null := by
    simp only [toNumericCell]
    unfold parsePrice at hnone
    rw [hnone]
  rw [hx]
  unfold parsedPrices at hzero
  rw [hzero]
  simp [fillNA, median]

/-- C6 witness: the general conjunct applied to the all-unparseable
two-row table. -/
theorem unparseable_price_column_witness :
    (∀ c ∈ (clean_price_column cmapPrice dfUnparseable).getColCells "Price",
      c = Cell.null) ∧
    priceStageStatus cmapPrice dfUnparseable = StageStatus.success :=
  unparseable_price_column.1 cmapPrice dfUnparseable "Price" (by decide) (by decide)
